import Mathlib

/-!
Shallow embedding of `button_extra_behavior.py` (class `ButtonExtraBehavior`),
a gesture disambiguator that turns raw pointer events into
right/middle/double/long-click gestures plus pass-through press/release
forwarding to the underlying button collaborator.

Modelling choices:
* Durations are integers (milliseconds); the source's defaults 0.25 s and
  0.2 s become 250 and 200.
* A Kivy `ClockEvent` returned by `Clock.schedule_once` stores its timeout at
  creation; calling the event re-schedules it with that stored timeout and is
  a no-op when it is already scheduled; `cancel` unschedules it; when it
  fires, it is no longer scheduled when the callback runs.  `is_triggered`
  means "currently scheduled/pending".
* Observable effects (gesture dispatches, calls forwarded to the underlying
  collaborator via `super`, timer arming) are collected in a list of
  `Action`s.
* `on_touch_down` / `on_touch_up` return the Python truthiness of their
  result (`True` ↦ `true`, falling off the end / `None` ↦ `false`).
* The presence of the underlying press-confirmation collaborator
  (`ButtonBehavior.trigger_action` in the MRO) is the flag
  `has_trigger_action`; when absent, calling it raises `AttributeError`,
  modelled with `Except`.
-/

namespace ButtonExtra

/-- Widget interaction state: the source's `state` property, `"normal"` or `"down"`. -/
inductive BState
  | normal
  | down
deriving DecidableEq, Repr

/-- Mouse button identity carried by a touch when `"button"` is in its profile;
`other` stands for any further button name that matches no branch. -/
inductive MouseButton
  | left
  | right
  | middle
  | scrollup
  | scrolldown
  | other
deriving DecidableEq, Repr

/-- A pointer event as seen by the mixin: whether `collide_point(*touch.pos)`
holds, whether some child's dispatch already returned `True`, and the button
identity (`none` when `"button"` is not in the touch profile). -/
structure Touch where
  inside : Bool
  childConsumed : Bool
  button : Option MouseButton
deriving DecidableEq, Repr

/-- A Kivy clock event from `Clock.schedule_once`: the timeout captured at
creation and whether it is currently scheduled. -/
structure ClockEvent where
  timeout : Int
  is_triggered : Bool
deriving DecidableEq, Repr

/-- `ClockEvent.cancel()`: unschedule (safe no-op when not scheduled). -/
def ClockEvent.cancel (c : ClockEvent) : ClockEvent :=
  { c with is_triggered := false }

/-- `ClockEvent.__call__()`: re-schedule with the stored timeout (no-op when
already scheduled). -/
def ClockEvent.call (c : ClockEvent) : ClockEvent :=
  { c with is_triggered := true }

/-- The state of one `ButtonExtraBehavior` instance: the three configuration
properties, the widget `state`, the two flags, the two clocks, and whether the
mixin composition provides `trigger_action` (a `ButtonBehavior` below it). -/
structure BEB where
  long_time : Int
  double_time : Int
  double_click_enabled : Bool
  state : BState
  after_long_press : Bool
  second_click : Bool
  long_clock : ClockEvent
  double_clock : ClockEvent
  has_trigger_action : Bool
deriving DecidableEq, Repr

/-- Observable effects emitted while handling events: gesture dispatches,
forwards to the underlying collaborator (`super().on_touch_down`,
`super().on_touch_up`, `super().trigger_action()`), and timer arming with the
duration actually scheduled. -/
inductive Action
  | onRightClick
  | onMiddleClick
  | onScrollUp
  | onScrollDown
  | onDoubleClick
  | onLongPress
  | superDown
  | superUp
  | triggerAction
  | armLong (d : Int)
  | armDouble (d : Int)
deriving DecidableEq, Repr

/-- `__init__`: flags false, both clocks created with the current property
values as timeout and immediately cancelled. -/
def initBEB (lt dt : Int) (en ht : Bool) : BEB :=
  { long_time := lt
    double_time := dt
    double_click_enabled := en
    state := BState.normal
    after_long_press := false
    second_click := false
    long_clock := { timeout := lt, is_triggered := false }
    double_clock := { timeout := dt, is_triggered := false }
    has_trigger_action := ht }

/-- A freshly constructed instance with the default property values
(`long_time = 0.25 s`, `double_time = 0.2 s`). -/
def defaultBEB (en ht : Bool) : BEB :=
  initBEB 250 200 en ht

/-- Plain attribute assignment `self.long_time = v` (no validation, clocks
untouched). -/
def set_long_time (s : BEB) (v : Int) : BEB :=
  { s with long_time := v }

/-- Plain attribute assignment `self.double_time = v`. -/
def set_double_time (s : BEB) (v : Int) : BEB :=
  { s with double_time := v }

/-- `on_touch_down`: child propagation, hit test, special buttons, then the
plain-contact path (double-click resolution / double-clock arming / immediate
forward, and long-clock arming).  Returns the new state, the emitted actions
in order, and the handled flag. -/
def on_touch_down (s : BEB) (t : Touch) : BEB × List Action × Bool :=
  if t.childConsumed then (s, [], true)
  else if t.inside then
    let s := { s with after_long_press := false, second_click := false }
    match t.button with
    | some MouseButton.right => ({ s with state := BState.down }, [Action.onRightClick], true)
    | some MouseButton.middle => ({ s with state := BState.down }, [Action.onMiddleClick], true)
    | some MouseButton.scrollup => (s, [Action.onScrollUp], true)
    | some MouseButton.scrolldown => (s, [Action.onScrollDown], true)
    | _ =>
      if s.double_clock.is_triggered then
        ({ s with second_click := true, state := BState.down,
                  double_clock := s.double_clock.cancel },
         [Action.onDoubleClick], true)
      else
        let p : BEB × List Action :=
          if s.double_click_enabled then
            ({ s with double_clock := s.double_clock.call },
             [Action.armDouble s.double_clock.timeout])
          else (s, [Action.superDown])
        if p.1.long_clock.is_triggered then (p.1, p.2, true)
        else ({ p.1 with long_clock := p.1.long_clock.call },
              p.2 ++ [Action.armLong p.1.long_clock.timeout], true)
  else (s, [], false)

/-- `on_touch_up`: child propagation, hit test, `state = "normal"`, wheel
releases swallowed, long-clock cancellation with double-click gating, flag
checks, and the fall-through forward to `super().on_touch_up`. -/
def on_touch_up (s : BEB) (t : Touch) : BEB × List Action × Bool :=
  if t.childConsumed then (s, [], true)
  else if t.inside then
    let s := { s with state := BState.normal }
    if t.button = some MouseButton.scrollup ∨ t.button = some MouseButton.scrolldown then
      (s, [], true)
    else if s.long_clock.is_triggered then
      let s := { s with long_clock := s.long_clock.cancel }
      if s.double_click_enabled then (s, [], true)
      else (s, [Action.superUp], true)
    else
      if s.second_click then (s, [], true)
      else if s.after_long_press then (s, [], true)
      else (s, [Action.superUp], true)
  else (s, [], false)

/-- Python exceptions relevant to this module. -/
inductive PyErr
  | attributeError
deriving DecidableEq, Repr

/-- `super().trigger_action()`: raises `AttributeError` when no
`ButtonBehavior` is in the mixin composition. -/
def trigger_action (ht : Bool) : Except PyErr (List Action) :=
  if ht then Except.ok [Action.triggerAction] else Except.error PyErr.attributeError

/-- The body of `send_press`'s `try` block: confirm the click via
`trigger_action` when the long clock is no longer pending, else only show the
pressed state. -/
def send_press_body (s : BEB) : Except PyErr (BEB × List Action) :=
  if s.long_clock.is_triggered = false then
    match trigger_action s.has_trigger_action with
    | Except.ok acts => Except.ok (s, acts)
    | Except.error e => Except.error e
  else Except.ok ({ s with state := BState.down }, [])

/-- `send_press` (the `double_clock` callback): the body wrapped in
`try ... except AttributeError: pass`. -/
def send_press (s : BEB) : BEB × List Action :=
  match send_press_body s with
  | Except.ok r => r
  | Except.error PyErr.attributeError => (s, [])

/-- `long_pressed` (the `long_clock` callback): set the flag and dispatch
`on_long_press`. -/
def long_pressed (s : BEB) : BEB × List Action :=
  ({ s with after_long_press := true }, [Action.onLongPress])

/-- One event delivered to the widget: a pointer down, a pointer up, or the
expiry of one of the two clocks (which only has an effect while that clock is
still scheduled; it is unscheduled when its callback runs). -/
inductive Ev
  | pdown (t : Touch)
  | pup (t : Touch)
  | fireLong
  | fireDouble
deriving DecidableEq, Repr

/-- One step of the event loop. -/
def step (s : BEB) : Ev → BEB × List Action
  | Ev.pdown t => ((on_touch_down s t).1, (on_touch_down s t).2.1)
  | Ev.pup t => ((on_touch_up s t).1, (on_touch_up s t).2.1)
  | Ev.fireLong =>
      if s.long_clock.is_triggered then
        long_pressed { s with long_clock := s.long_clock.cancel }
      else (s, [])
  | Ev.fireDouble =>
      if s.double_clock.is_triggered then
        send_press { s with double_clock := s.double_clock.cancel }
      else (s, [])

/-- Run a sequence of events, concatenating the emitted actions. -/
def run (s : BEB) : List Ev → BEB × List Action
  | [] => (s, [])
  | e :: es => ((run (step s e).1 es).1, (step s e).2 ++ (run (step s e).1 es).2)

/-- Actions that reach the underlying press/release collaborator: a forwarded
press, a forwarded release, or a `trigger_action` press-and-release. -/
def Action.isConfirm : Action → Bool
  | Action.superDown => true
  | Action.superUp => true
  | Action.triggerAction => true
  | _ => false

/-- Number of press/release confirms among the emitted actions. -/
def confirmCount (as : List Action) : Nat :=
  (as.filter Action.isConfirm).length

/-- Recognize an `on_double_click` dispatch. -/
def isDoubleClickEv : Action → Bool
  | Action.onDoubleClick => true
  | _ => false

/-- Recognize an `on_long_press` dispatch. -/
def isLongPressEv : Action → Bool
  | Action.onLongPress => true
  | _ => false

/-- Recognize an arming of the long clock. -/
def isArmLong : Action → Bool
  | Action.armLong _ => true
  | _ => false

/-- A touch that takes the plain-contact path: inside the widget, not consumed
by a child, and carrying no special button identity. -/
def plainTouch (t : Touch) : Prop :=
  t.inside = true ∧ t.childConsumed = false ∧
    (t.button = none ∨ t.button = some MouseButton.left ∨ t.button = some MouseButton.other)

/-- Canonical sample touches used in concrete evaluations. -/
def tPlain : Touch := { inside := true, childConsumed := false, button := none }

def tRight : Touch := { inside := true, childConsumed := false, button := some MouseButton.right }

def tMiddle : Touch := { inside := true, childConsumed := false, button := some MouseButton.middle }

def tScrollUp : Touch := { inside := true, childConsumed := false, button := some MouseButton.scrollup }

def tOutside : Touch := { inside := false, childConsumed := false, button := none }

def tChild : Touch := { inside := true, childConsumed := true, button := none }

/-- A reachable state with the double clock pending: the state after a quick
first tap with double-click detection enabled. -/
def sDblPending : BEB :=
  { defaultBEB true true with double_clock := { timeout := 200, is_triggered := true } }

/-- Handling a plain touch does not depend on which plain button variant it
carries. -/
theorem on_touch_down_plain (s : BEB) (t : Touch) (hp : plainTouch t) :
    on_touch_down s t = on_touch_down s tPlain := by
  obtain ⟨hi, hc, hb⟩ := hp
  obtain ⟨ti, tc, tb⟩ := t
  dsimp only at hi hc hb
  subst hi; subst hc
  rcases hb with h | h | h <;> subst h <;> rfl

/-- Releasing a plain touch does not depend on which plain button variant it
carries. -/
theorem on_touch_up_plain (s : BEB) (t : Touch) (hp : plainTouch t) :
    on_touch_up s t = on_touch_up s tPlain := by
  obtain ⟨hi, hc, hb⟩ := hp
  obtain ⟨ti, tc, tb⟩ := t
  dsimp only at hi hc hb
  subst hi; subst hc
  rcases hb with h | h | h <;> subst h <;> rfl

/-- Step form of `on_touch_down_plain`. -/
theorem step_pdown_plain (s : BEB) (t : Touch) (hp : plainTouch t) :
    step s (Ev.pdown t) = step s (Ev.pdown tPlain) := by
  simp only [step, on_touch_down_plain s t hp]

/-- Step form of `on_touch_up_plain`. -/
theorem step_pup_plain (s : BEB) (t : Touch) (hp : plainTouch t) :
    step s (Ev.pup t) = step s (Ev.pup tPlain) := by
  simp only [step, on_touch_up_plain s t hp]

/-- C1 (amended): when the double clock expires without a second tap,
`send_press` runs; if the long clock is no longer pending it forwards to the
press-confirmation collaborator (`trigger_action`, which succeeds exactly when
the collaborator is present), leaving the state untouched; if the long clock
is still pending it only sets state = pressed and forwards nothing. -/
theorem C1_thm (s : BEB) :
    (s.long_clock.is_triggered = false →
      (s.has_trigger_action = true → send_press s = (s, [Action.triggerAction])) ∧
      (s.has_trigger_action = false → send_press s = (s, []))) ∧
    (s.long_clock.is_triggered = true →
      send_press s = ({ s with state := BState.down }, [])) := by
  obtain ⟨lt, dt, en, st, alp, sc, ⟨lto, ltr⟩, dc, ht⟩ := s
  cases ltr <;> cases ht <;>
    simp [send_press, send_press_body, trigger_action]

/-- C1 witness: on a fresh instance (long clock not pending, collaborator
present) the double-click expiry forwards a press confirmation. -/
theorem C1_wit :
    send_press (defaultBEB false true) = (defaultBEB false true, [Action.triggerAction]) :=
  ((C1_thm (defaultBEB false true)).1 rfl).1 rfl

/-- C1 counterexample: with the long clock no longer pending, the callback
forwards a press confirmation and leaves the state at normal — the opposite of
the claimed "set state = pressed instead of forwarding". -/
theorem C1_cex :
    (defaultBEB false true).long_clock.is_triggered = false ∧
    (send_press (defaultBEB false true)).2 = [Action.triggerAction] ∧
    (send_press (defaultBEB false true)).1.state = BState.normal := by
  decide

/-- C2 (amended): a pointer-down with button identity right (middle) inside
the widget, not consumed by a child, dispatches exactly onRightClick
(onMiddleClick), sets state = pressed and returns handled; but the matching
pointer-up (same button identity) falls through to the underlying
collaborator's release handler rather than being suppressed by this mixin. -/
theorem C2_thm (s : BEB) (t u : Touch)
    (hti : t.inside = true) (htc : t.childConsumed = false)
    (hui : u.inside = true) (huc : u.childConsumed = false)
    (hub : u.button = t.button)
    (hlp : s.long_clock.is_triggered = false) :
    (t.button = some MouseButton.right →
      (on_touch_down s t).2.1 = [Action.onRightClick] ∧
      (on_touch_down s t).2.2 = true ∧
      (on_touch_down s t).1.state = BState.down ∧
      (on_touch_up (on_touch_down s t).1 u).2.1 = [Action.superUp] ∧
      (on_touch_up (on_touch_down s t).1 u).2.2 = true) ∧
    (t.button = some MouseButton.middle →
      (on_touch_down s t).2.1 = [Action.onMiddleClick] ∧
      (on_touch_down s t).2.2 = true ∧
      (on_touch_down s t).1.state = BState.down ∧
      (on_touch_up (on_touch_down s t).1 u).2.1 = [Action.superUp] ∧
      (on_touch_up (on_touch_down s t).1 u).2.2 = true) := by
  constructor <;> intro hb <;>
    simp [on_touch_down, on_touch_up, hti, htc, hui, huc, hub, hb, hlp]

/-- C2 witness: a right-click down/up pair on a fresh instance. -/
theorem C2_wit :
    (on_touch_down (defaultBEB false true) tRight).2.1 = [Action.onRightClick] ∧
    (on_touch_down (defaultBEB false true) tRight).2.2 = true ∧
    (on_touch_down (defaultBEB false true) tRight).1.state = BState.down ∧
    (on_touch_up (on_touch_down (defaultBEB false true) tRight).1 tRight).2.1
      = [Action.superUp] ∧
    (on_touch_up (on_touch_down (defaultBEB false true) tRight).1 tRight).2.2 = true :=
  (C2_thm (defaultBEB false true) tRight tRight rfl rfl rfl rfl rfl rfl).1 rfl

/-- C2 counterexample: the pointer-up matching a right-click down does produce
a release forward to the underlying collaborator, contrary to the claim that
no release-confirm is produced. -/
theorem C2_cex :
    (on_touch_down (defaultBEB false true) tRight).2.1 = [Action.onRightClick] ∧
    confirmCount (on_touch_up (on_touch_down (defaultBEB false true) tRight).1 tRight).2.1
      = 1 := by
  decide

/-- C3 (amended): for a plain contact on an idle instance with
`double_click_enabled = true`, where the double clock expires and then the
long clock expires before the pointer-up (the ordering given by the default
durations 200 < 250), exactly one onLongPress fires and no press/release
confirm is forwarded for the contact. -/
theorem C3_thm (s : BEB) (t u : Touch) (hpt : plainTouch t) (hpu : plainTouch u)
    (hen : s.double_click_enabled = true)
    (hd : s.double_clock.is_triggered = false)
    (hl : s.long_clock.is_triggered = false) :
    ((run s [Ev.pdown t, Ev.fireDouble, Ev.fireLong, Ev.pup u]).2.filter isLongPressEv).length
      = 1 ∧
    confirmCount (run s [Ev.pdown t, Ev.fireDouble, Ev.fireLong, Ev.pup u]).2 = 0 := by
  simp only [run, step_pdown_plain _ t hpt, step_pup_plain _ u hpu]
  obtain ⟨lt, dt, en, st, alp, sc, ⟨lto, ltr⟩, ⟨dto, dtr⟩, ht⟩ := s
  dsimp only at hen hd hl
  subst hen; subst hd; subst hl
  exact ⟨rfl, rfl⟩

/-- C3 witness: the default configuration with double click enabled. -/
theorem C3_wit :
    ((run (defaultBEB true true)
        [Ev.pdown tPlain, Ev.fireDouble, Ev.fireLong, Ev.pup tPlain]).2.filter
          isLongPressEv).length = 1 ∧
    confirmCount (run (defaultBEB true true)
        [Ev.pdown tPlain, Ev.fireDouble, Ev.fireLong, Ev.pup tPlain]).2 = 0 :=
  C3_thm (defaultBEB true true) tPlain tPlain ⟨rfl, rfl, Or.inl rfl⟩
    ⟨rfl, rfl, Or.inl rfl⟩ rfl rfl rfl

/-- C3 counterexample: with `double_click_enabled = false` a long-held plain
contact still forwards one press confirm (at pointer-down), contradicting the
claim for "any value of doubleClickEnabled"; the long press itself fires once
and `superDown` is the confirm that leaked. -/
theorem C3_cex :
    confirmCount (run (defaultBEB false true)
        [Ev.pdown tPlain, Ev.fireLong, Ev.pup tPlain]).2 = 1 ∧
    ((run (defaultBEB false true)
        [Ev.pdown tPlain, Ev.fireLong, Ev.pup tPlain]).2.filter isLongPressEv).length = 1 ∧
    Action.superDown ∈ (run (defaultBEB false true)
        [Ev.pdown tPlain, Ev.fireLong, Ev.pup tPlain]).2 := by
  decide

/-- C4 (amended): an event a child already consumed leaves the state unchanged
but returns handled (`True`), stopping further processing; an event outside
the hit region that no child consumed is a no-op returning not handled. -/
theorem C4_thm (s : BEB) (t : Touch) :
    (t.childConsumed = true →
      on_touch_down s t = (s, [], true) ∧ on_touch_up s t = (s, [], true)) ∧
    (t.childConsumed = false → t.inside = false →
      on_touch_down s t = (s, [], false) ∧ on_touch_up s t = (s, [], false)) := by
  obtain ⟨ti, tc, tb⟩ := t
  constructor
  · intro h; dsimp only at h; subst h; exact ⟨rfl, rfl⟩
  · intro h hi; dsimp only at h hi; subst h; subst hi; exact ⟨rfl, rfl⟩

/-- C4 witness: a child-consumed event and an outside event on a fresh
instance. -/
theorem C4_wit :
    (on_touch_down (defaultBEB false true) tChild
        = (defaultBEB false true, [], true) ∧
      on_touch_up (defaultBEB false true) tChild
        = (defaultBEB false true, [], true)) ∧
    (on_touch_down (defaultBEB false true) tOutside
        = (defaultBEB false true, [], false) ∧
      on_touch_up (defaultBEB false true) tOutside
        = (defaultBEB false true, [], false)) :=
  ⟨(C4_thm (defaultBEB false true) tChild).1 rfl,
   (C4_thm (defaultBEB false true) tOutside).2 rfl rfl⟩

/-- C4 counterexample: a pointer-down a child already consumed returns handled
(`true`), not "not handled" as the claim states. -/
theorem C4_cex :
    tChild.childConsumed = true ∧
    (on_touch_down (defaultBEB false true) tChild).2.2 = true := by
  decide

/-- C5 (amended): a plain pointer-down with the double clock not pending
(re)arms the long clock and returns handled; but in the second-tap branch
(double clock pending) `on_touch_down` returns handled after dispatching only
onDoubleClick, leaving the long clock exactly as it was and emitting no
`armLong`. -/
theorem C5_thm (s : BEB) (t : Touch) (hp : plainTouch t) :
    (s.double_clock.is_triggered = false →
      (on_touch_down s t).1.long_clock.is_triggered = true ∧
      (on_touch_down s t).2.2 = true) ∧
    (s.double_clock.is_triggered = true →
      (on_touch_down s t).1.long_clock = s.long_clock ∧
      ((on_touch_down s t).2.1.filter isArmLong).length = 0 ∧
      (on_touch_down s t).2.1 = [Action.onDoubleClick] ∧
      (on_touch_down s t).2.2 = true) := by
  rw [on_touch_down_plain s t hp]
  obtain ⟨lt, dt, en, st, alp, sc, ⟨lto, ltr⟩, ⟨dto, dtr⟩, ht⟩ := s
  cases dtr <;> cases en <;> cases ltr <;>
    simp [on_touch_down, ClockEvent.call, ClockEvent.cancel, isArmLong, tPlain]

/-- C5 witness: the second tap of a double click, on the reachable state after
a quick first tap. -/
theorem C5_wit :
    (on_touch_down sDblPending tPlain).1.long_clock = sDblPending.long_clock ∧
    ((on_touch_down sDblPending tPlain).2.1.filter isArmLong).length = 0 ∧
    (on_touch_down sDblPending tPlain).2.1 = [Action.onDoubleClick] ∧
    (on_touch_down sDblPending tPlain).2.2 = true :=
  (C5_thm sDblPending tPlain ⟨rfl, rfl, Or.inl rfl⟩).2 rfl

/-- C5 counterexample: `sDblPending` is reached by a quick first tap; the
second tap returns handled with the long clock still unarmed and no `armLong`
emitted, contradicting "the longPressTimer is (re)armed" in every
plain-contact branch. -/
theorem C5_cex :
    (run (defaultBEB true true) [Ev.pdown tPlain, Ev.pup tPlain]).1 = sDblPending ∧
    (on_touch_down sDblPending tPlain).2.2 = true ∧
    (on_touch_down sDblPending tPlain).1.long_clock.is_triggered = false ∧
    ((on_touch_down sDblPending tPlain).2.1.filter isArmLong).length = 0 := by
  decide

/-- C6 (amended): a scroll pointer-down inside the widget leaves
`interactionState` unchanged, forwards no press/release confirm and returns
handled; the matching wheel release forwards no confirm and returns handled,
but — like every inside pointer-up — it sets the state to normal rather than
leaving it unchanged. -/
theorem C6_thm (s : BEB) (t : Touch)
    (hi : t.inside = true) (hc : t.childConsumed = false)
    (hb : t.button = some MouseButton.scrollup ∨ t.button = some MouseButton.scrolldown) :
    ((on_touch_down s t).1.state = s.state ∧
      confirmCount (on_touch_down s t).2.1 = 0 ∧
      (on_touch_down s t).2.2 = true) ∧
    ((on_touch_up s t).1.state = BState.normal ∧
      confirmCount (on_touch_up s t).2.1 = 0 ∧
      (on_touch_up s t).2.2 = true) := by
  rcases hb with h | h <;>
    simp [on_touch_down, on_touch_up, confirmCount, Action.isConfirm, hi, hc, h]

/-- C6 witness: a scroll-up down/up pair on a fresh instance. -/
theorem C6_wit :
    ((on_touch_down (defaultBEB false true) tScrollUp).1.state
        = (defaultBEB false true).state ∧
      confirmCount (on_touch_down (defaultBEB false true) tScrollUp).2.1 = 0 ∧
      (on_touch_down (defaultBEB false true) tScrollUp).2.2 = true) ∧
    ((on_touch_up (defaultBEB false true) tScrollUp).1.state = BState.normal ∧
      confirmCount (on_touch_up (defaultBEB false true) tScrollUp).2.1 = 0 ∧
      (on_touch_up (defaultBEB false true) tScrollUp).2.2 = true) :=
  C6_thm (defaultBEB false true) tScrollUp rfl rfl (Or.inl rfl)

/-- C6 counterexample: while a right-button press keeps the state pressed, a
wheel release resets it to normal — the scroll release does change
`interactionState`. -/
theorem C6_cex :
    (run (defaultBEB false true) [Ev.pdown tRight, Ev.pdown tScrollUp]).1.state
      = BState.down ∧
    (run (defaultBEB false true)
        [Ev.pdown tRight, Ev.pdown tScrollUp, Ev.pup tScrollUp]).1.state
      = BState.normal := by
  decide

/-- C7: two plain taps with double click enabled, the second down arriving
while the double clock is still pending (no expiry event in between): exactly
one onDoubleClick is dispatched over the four events and no press/release
confirm is forwarded for either tap. -/
theorem C7_thm (s : BEB) (t1 u1 t2 u2 : Touch)
    (h1 : plainTouch t1) (h2 : plainTouch u1) (h3 : plainTouch t2) (h4 : plainTouch u2)
    (hen : s.double_click_enabled = true)
    (hd : s.double_clock.is_triggered = false) :
    ((run s [Ev.pdown t1, Ev.pup u1, Ev.pdown t2, Ev.pup u2]).2.filter
        isDoubleClickEv).length = 1 ∧
    confirmCount (run s [Ev.pdown t1, Ev.pup u1, Ev.pdown t2, Ev.pup u2]).2 = 0 := by
  simp only [run, step_pdown_plain _ t1 h1, step_pdown_plain _ t2 h3,
    step_pup_plain _ u1 h2, step_pup_plain _ u2 h4]
  obtain ⟨lt, dt, en, st, alp, sc, ⟨lto, ltr⟩, ⟨dto, dtr⟩, ht⟩ := s
  dsimp only at hen hd
  subst hen; subst hd
  cases ltr <;> exact ⟨rfl, rfl⟩

/-- C7 witness: a double tap on a fresh instance with double click enabled. -/
theorem C7_wit :
    ((run (defaultBEB true true)
        [Ev.pdown tPlain, Ev.pup tPlain, Ev.pdown tPlain, Ev.pup tPlain]).2.filter
          isDoubleClickEv).length = 1 ∧
    confirmCount (run (defaultBEB true true)
        [Ev.pdown tPlain, Ev.pup tPlain, Ev.pdown tPlain, Ev.pup tPlain]).2 = 0 :=
  C7_thm (defaultBEB true true) tPlain tPlain tPlain tPlain
    ⟨rfl, rfl, Or.inl rfl⟩ ⟨rfl, rfl, Or.inl rfl⟩ ⟨rfl, rfl, Or.inl rfl⟩
    ⟨rfl, rfl, Or.inl rfl⟩ rfl rfl

/-- C8 (amended): the clocks are created with the property values current at
construction and every (re)arm schedules exactly the stored timeout; plain
assignment to `long_time` / `double_time` leaves the stored timeouts
untouched, so it does not affect subsequent arms. -/
theorem C8_thm (lt dt v : Int) (en ht : Bool) (s : BEB) (t : Touch)
    (hp : plainTouch t) (hd : s.double_clock.is_triggered = false)
    (hl : s.long_clock.is_triggered = false) :
    (initBEB lt dt en ht).long_clock.timeout = lt ∧
    (initBEB lt dt en ht).double_clock.timeout = dt ∧
    (set_long_time s v).long_clock = s.long_clock ∧
    (set_double_time s v).double_clock = s.double_clock ∧
    Action.armLong s.long_clock.timeout ∈ (on_touch_down s t).2.1 ∧
    (s.double_click_enabled = true →
      Action.armDouble s.double_clock.timeout ∈ (on_touch_down s t).2.1) := by
  rw [on_touch_down_plain s t hp]
  obtain ⟨slt, sdt, en2, st, alp, sc, ⟨lto, ltr⟩, ⟨dto, dtr⟩, ht2⟩ := s
  dsimp only at hd hl
  subst hd; subst hl
  cases en2 <;>
    simp [initBEB, set_long_time, set_double_time, on_touch_down,
      ClockEvent.call, tPlain]

/-- C8 witness: construction stores 250/200; reassigning `long_time` to 999
does not change the stored timeouts; a plain down arms with the stored
values. -/
theorem C8_wit :
    (initBEB 250 200 true true).long_clock.timeout = 250 ∧
    (initBEB 250 200 true true).double_clock.timeout = 200 ∧
    (set_long_time (defaultBEB true true) 999).long_clock
      = (defaultBEB true true).long_clock ∧
    (set_double_time (defaultBEB true true) 999).double_clock
      = (defaultBEB true true).double_clock ∧
    Action.armLong 250 ∈ (on_touch_down (defaultBEB true true) tPlain).2.1 ∧
    Action.armDouble 200 ∈ (on_touch_down (defaultBEB true true) tPlain).2.1 := by
  have h := C8_thm 250 200 999 true true (defaultBEB true true) tPlain
    ⟨rfl, rfl, Or.inl rfl⟩ rfl rfl
  exact ⟨h.1, h.2.1, h.2.2.1, h.2.2.2.1, h.2.2.2.2.1, h.2.2.2.2.2 rfl⟩

/-- C8 counterexample: after assigning `long_time := 999` on a constructed
instance, a plain pointer-down still arms the long clock with 250 (the value
captured at construction), not with the current property value 999. -/
theorem C8_cex :
    (set_long_time (defaultBEB false true) 999).long_time = 999 ∧
    (on_touch_down (set_long_time (defaultBEB false true) 999) tPlain).2.1
      = [Action.superDown, Action.armLong 250] ∧
    Action.armLong 999 ∉
      (on_touch_down (set_long_time (defaultBEB false true) 999) tPlain).2.1 := by
  decide

/-- C9: when the press-confirmation collaborator is absent
(`has_trigger_action = false`) and the long clock is not pending, the body of
`send_press` raises `AttributeError`, the handler swallows it, and the
callback returns with the state unchanged and no action emitted — no error
propagates and the click is simply not confirmed. -/
theorem C9_thm (s : BEB) (hht : s.has_trigger_action = false)
    (hl : s.long_clock.is_triggered = false) :
    send_press_body s = Except.error PyErr.attributeError ∧
    send_press s = (s, []) := by
  obtain ⟨lt, dt, en, st, alp, sc, ⟨lto, ltr⟩, dc, ht⟩ := s
  dsimp only at hht hl
  subst hht; subst hl
  exact ⟨rfl, rfl⟩

/-- C9 witness: a fresh instance whose composition has no ButtonBehavior. -/
theorem C9_wit :
    send_press_body (defaultBEB false false) = Except.error PyErr.attributeError ∧
    send_press (defaultBEB false false) = (defaultBEB false false, []) :=
  C9_thm (defaultBEB false false) rfl rfl

/-- C10: every pointer-up inside the widget that no child consumed returns
handled and sets the state to normal; and when both flags are false, the long
clock is not pending and double click is disabled, a plain pointer-up forwards
a release to the underlying collaborator even if this widget never processed a
matching pointer-down. -/
theorem C10_thm (s : BEB) (t : Touch)
    (hi : t.inside = true) (hc : t.childConsumed = false) :
    ((on_touch_up s t).2.2 = true ∧ (on_touch_up s t).1.state = BState.normal) ∧
    ((t.button = none ∨ t.button = some MouseButton.left ∨
        t.button = some MouseButton.other) →
      s.second_click = false → s.after_long_press = false →
      s.long_clock.is_triggered = false → s.double_click_enabled = false →
      (on_touch_up s t).2.1 = [Action.superUp]) := by
  obtain ⟨ti, tc, tb⟩ := t
  obtain ⟨lt, dt, en, st, alp, sc, ⟨lto, ltr⟩, ⟨dto, dtr⟩, ht⟩ := s
  dsimp only at hi hc
  subst hi; subst hc
  rcases tb with _ | mb
  · cases ltr <;> cases en <;> cases sc <;> cases alp <;>
      simp [on_touch_up, ClockEvent.cancel]
  · cases mb <;> cases ltr <;> cases en <;> cases sc <;> cases alp <;>
      simp [on_touch_up, ClockEvent.cancel]

/-- C10 witness: a pointer-up on a fresh instance that never saw the down. -/
theorem C10_wit :
    (on_touch_up (defaultBEB false true) tPlain).2.2 = true ∧
    (on_touch_up (defaultBEB false true) tPlain).1.state = BState.normal ∧
    (on_touch_up (defaultBEB false true) tPlain).2.1 = [Action.superUp] := by
  have h := C10_thm (defaultBEB false true) tPlain rfl rfl
  exact ⟨h.1.1, h.1.2, h.2 (Or.inl rfl) rfl rfl rfl rfl⟩

end ButtonExtra
